/-
Verification of the multi_push notification relay.

The development shallowly embeds the Rust sources:
  * platforms/common/src/lib.rs   — message model, builder, error taxonomy, registry
  * platforms/wxwork_group_bot/src/lib.rs — the reference webhook integration
  * server/src/main.rs, server/src/api.rs — the dispatch handler

Network I/O is made explicit: every operation that may perform an outbound
HTTP POST returns, besides its result, the list of posts it attempted, and
consumes a `NetEnv` describing what the network would answer.  JSON
deserialization performed by the serde library is embedded over a small JSON
value type (for configuration blobs) or kept as an abstract parse function
supplied by the environment (for the response-envelope parse, which operates
on raw body strings).
-/
import Mathlib

set_option autoImplicit false

/-- JSON values, mirroring `serde_json::Value` as used for configuration
blobs (`PushRequest.config` is a `serde_json::Value`). -/
inductive Json where
  | null : Json
  | bool (b : Bool) : Json
  | num (n : Int) : Json
  | str (s : String) : Json
  | arr (xs : List Json) : Json
  | obj (fields : List (String × Json)) : Json

/-- First value bound to a key in a JSON object's field list (a
`serde_json::Map` holds at most one binding per key). -/
def Json.lookupField : List (String × Json) → String → Option Json
  | [], _ => none
  | (k, v) :: rest, key => if k = key then some v else Json.lookupField rest key

/-- `PushError` from platforms/common/src/lib.rs. -/
inductive PushError where
  | NetworkError (msg : String) : PushError
  | AuthError (msg : String) : PushError
  | ConfigError (msg : String) : PushError
  | MessageError (msg : String) : PushError
  | PlatformError (msg : String) : PushError
deriving DecidableEq, Repr

/-- The `Display` rendering produced by the `thiserror` attributes on
`PushError` (used by the dispatch handler via `push_error.to_string()`). -/
def PushError.toString : PushError → String
  | .NetworkError m => "Network error: " ++ m
  | .AuthError m => "Authentication error: " ++ m
  | .ConfigError m => "Configuration error: " ++ m
  | .MessageError m => "Message error: " ++ m
  | .PlatformError m => "Platform error: " ++ m

/-- `MessageType` from platforms/common/src/lib.rs. -/
inductive MessageType where
  | Text (content : String) : MessageType
  | Markdown (content : String) : MessageType
  | Rich (title : String) (content : String) (url : Option String) : MessageType
  | Image (url : String) (caption : Option String) : MessageType
  | Link (title : String) (description : String) (url : String)
      (image_url : Option String) : MessageType
deriving DecidableEq, Repr

/-- `Priority` from platforms/common/src/lib.rs. -/
inductive Priority where
  | Low : Priority
  | Normal : Priority
  | High : Priority
  | Urgent : Priority
deriving DecidableEq, Repr

/-- `PushResult` from platforms/common/src/lib.rs.  The `timestamp` field is
`DateTime<Utc>` in the source; it is embedded as a `Nat` tick supplied by the
environment (`Utc::now()` reads the ambient clock). -/
structure PushResult where
  message_id : Option String
  success : Bool
  response : Option String
  timestamp : Nat
deriving DecidableEq, Repr

/-- `impl Default for PushResult`: `message_id: None, success: false,
response: None, timestamp: Utc::now()`; `now` is the ambient clock value. -/
def PushResult.default (now : Nat) : PushResult :=
  { message_id := none, success := false, response := none, timestamp := now }

/-- `PlatformInfo` from platforms/common/src/lib.rs. -/
structure PlatformInfo where
  name : String
  version : String
  features : List String
  supports_markdown : Bool
  supports_rich_text : Bool
  supports_images : Bool
deriving DecidableEq, Repr

/-- `MessageBuilder` from platforms/common/src/lib.rs. -/
structure MessageBuilder where
  message_type : MessageType
  priority : Priority
  mentions : List String
deriving DecidableEq, Repr

/-- `MessageBuilder::text`. -/
def MessageBuilder.text (content : String) : MessageBuilder :=
  { message_type := .Text content, priority := .Normal, mentions := [] }

/-- `MessageBuilder::markdown`. -/
def MessageBuilder.markdown (content : String) : MessageBuilder :=
  { message_type := .Markdown content, priority := .Normal, mentions := [] }

/-- `MessageBuilder::rich`. -/
def MessageBuilder.rich (title : String) (content : String) : MessageBuilder :=
  { message_type := .Rich title content none, priority := .Normal, mentions := [] }

/-- `MessageBuilder::priority`. -/
def MessageBuilder.priority_ (b : MessageBuilder) (p : Priority) : MessageBuilder :=
  { b with priority := p }

/-- `MessageBuilder::mention`. -/
def MessageBuilder.mention (b : MessageBuilder) (user : String) : MessageBuilder :=
  { b with mentions := b.mentions ++ [user] }

/-- `MessageBuilder::mentions` (extends the mention list). -/
def MessageBuilder.mentions_ (b : MessageBuilder) (users : List String) : MessageBuilder :=
  { b with mentions := b.mentions ++ users }

/-- `MessageBuilder::build`. -/
def MessageBuilder.build (b : MessageBuilder) : MessageType :=
  b.message_type

/-- `PlatformRegistry` from platforms/common/src/lib.rs: a
`HashMap<String, Box<dyn PlatformFactory>>`, embedded as an association list
with at most one binding per key (`insert` overwrites in place).  `F` stands
for the boxed factory trait objects. -/
structure PlatformRegistry (F : Type) where
  factories : List (String × F)

/-- `PlatformRegistry::new`. -/
def PlatformRegistry.new (F : Type) : PlatformRegistry F :=
  { factories := [] }

/-- `HashMap::insert`: replace the binding for the key if present, otherwise
add one. -/
def insertAssoc {F : Type} : List (String × F) → String → F → List (String × F)
  | [], k, v => [(k, v)]
  | (k0, v0) :: rest, k, v =>
    if k0 = k then (k, v) :: rest else (k0, v0) :: insertAssoc rest k v

/-- `PlatformRegistry::register`: inserts under `factory.name()`; `name`
stands for the trait-object method `PlatformFactory::name`. -/
def PlatformRegistry.register {F : Type} (name : F → String)
    (r : PlatformRegistry F) (factory : F) : PlatformRegistry F :=
  { factories := insertAssoc r.factories (name factory) factory }

/-- `PlatformRegistry::get_factory`: `HashMap::get`. -/
def PlatformRegistry.get_factory {F : Type} (r : PlatformRegistry F)
    (n : String) : Option F :=
  (r.factories.find? (fun kv => kv.1 = n)).map (·.2)

/-- `PlatformRegistry::list_platforms`. -/
def PlatformRegistry.list_platforms {F : Type} (r : PlatformRegistry F) : List String :=
  r.factories.map (·.1)

/-- A whole startup sequence of `register` calls, in order. -/
def PlatformRegistry.registerAll {F : Type} (name : F → String)
    (r : PlatformRegistry F) (fs : List F) : PlatformRegistry F :=
  fs.foldl (PlatformRegistry.register name) r

/- ### Reference integration: platforms/wxwork_group_bot/src/lib.rs -/

/-- `PLATFORM_NAME` constant. -/
def PLATFORM_NAME : String := "wxwork"

/-- `BASE_URL` constant. -/
def BASE_URL : String := "https://qyapi.weixin.qq.com/cgi-bin/webhook/send"

/-- `WxWorkConfig`. -/
structure WxWorkConfig where
  token : String
deriving DecidableEq, Repr

/-- `serde_json::from_value::<WxWorkConfig>`: the derived deserializer
accepts a JSON object whose `token` field is a string (`visit_map`), and
also — positionally — a JSON array holding exactly one string
(`visit_seq`: one element per field, then `serde_json` rejects any
remaining elements with an invalid-length error).  Anything else is a
deserialization error.  The error texts stand in for serde's messages. -/
def WxWorkConfig.fromJson : Json → Except String WxWorkConfig
  | .obj fields =>
    match Json.lookupField fields "token" with
    | some (.str s) => .ok { token := s }
    | some _ => .error "invalid type for field token, expected a string"
    | none => .error "missing field token"
  | .arr [.str s] => .ok { token := s }
  | .arr [] => .error "invalid length 0, expected struct WxWorkConfig with 1 element"
  | .arr (.str _ :: _ :: _) => .error "invalid length, expected fewer elements in array"
  | .arr (_ :: _) => .error "invalid type for field token, expected a string"
  | _ => .error "invalid type: expected struct WxWorkConfig"

/-- `WxWorkConfig::webhook_url` (from `impl PushInitConfig for WxWorkConfig`):
`format!("{BASE_URL}?key={}", self.token)`. -/
def WxWorkConfig.webhook_url (c : WxWorkConfig) : String :=
  BASE_URL ++ "?key=" ++ c.token

/-- `WxWorkText` wire struct. -/
structure WxWorkText where
  content : String
  mentioned_list : List String
  mentioned_mobile_list : List String
deriving DecidableEq, Repr

/-- `WxWorkTextPayload` wire struct. -/
structure WxWorkTextPayload where
  msgtype : String
  text : WxWorkText
deriving DecidableEq, Repr

/-- `WxWorkMarkdown` wire struct. -/
structure WxWorkMarkdown where
  content : String
deriving DecidableEq, Repr

/-- `WxWorkMarkdownPayload` wire struct. -/
structure WxWorkMarkdownPayload where
  msgtype : String
  markdown : WxWorkMarkdown
deriving DecidableEq, Repr

/-- `WxWorkResponse`: the `{errcode, errmsg}` envelope (errcode is `i32`). -/
structure WxWorkResponse where
  errcode : Int
  errmsg : String
deriving DecidableEq, Repr

/-- The serializable payloads this integration ever posts. -/
inductive WirePayload where
  | text (p : WxWorkTextPayload) : WirePayload
  | markdown (p : WxWorkMarkdownPayload) : WirePayload
deriving DecidableEq, Repr

/-- One attempted outbound HTTP POST: target URL and JSON body. -/
structure HttpPost where
  url : String
  payload : WirePayload
deriving DecidableEq, Repr

/-- What the network answers to the one POST of a send attempt:
either the transport fails outright (`reqwest` send error), or a response
arrives with a status code and a body read that may itself fail
(`response.text()` error). -/
inductive TransportOutcome where
  | sendFailure (err : String) : TransportOutcome
  | response (status : Nat) (body : Except String String) : TransportOutcome

/-- `reqwest::StatusCode::is_success`: 2xx. -/
def statusIsSuccess (s : Nat) : Bool :=
  200 ≤ s && s < 300

/-- The ambient world of one send attempt: the clock read by `Utc::now()`,
the serde parse of a raw body into the `{errcode, errmsg}` envelope
(`serde_json::from_str::<WxWorkResponse>`), and the transport outcome. -/
structure NetEnv where
  now : Nat
  parseEnvelope : String → Except String WxWorkResponse
  outcome : TransportOutcome

/-- `WxWorkGroupBotPlatform` (the `http_client` field carries no
behaviour-relevant state and is omitted). -/
structure WxWorkGroupBotPlatform where
  config : WxWorkConfig
deriving DecidableEq, Repr

/-- `WxWorkGroupBotPlatform::new` (`impl PushPlatform`). -/
def WxWorkGroupBotPlatform.new (config : WxWorkConfig) : WxWorkGroupBotPlatform :=
  { config := config }

/-- `WxWorkGroupBotPlatform::send_request`: posts the payload to the webhook
URL and interprets the outcome.  Besides the `Result`, it returns the list of
POSTs attempted (always exactly one). -/
def WxWorkGroupBotPlatform.send_request (p : WxWorkGroupBotPlatform)
    (env : NetEnv) (payload : WirePayload) :
    Except PushError PushResult × List HttpPost :=
  let posts := [{ url := p.config.webhook_url, payload := payload : HttpPost }]
  match env.outcome with
  | .sendFailure e => (.error (.NetworkError e), posts)
  | .response status body =>
    match body with
    | .error e => (.error (.NetworkError e), posts)
    | .ok text =>
      if statusIsSuccess status then
        match env.parseEnvelope text with
        | .error e => (.error (.PlatformError e), posts)
        | .ok wx =>
          if wx.errcode = 0 then
            (.ok { message_id := none, success := true, response := some text,
                   timestamp := env.now }, posts)
          else
            (.error (.PlatformError ("WxWork API Error: code=" ++ toString wx.errcode
              ++ ", message=" ++ wx.errmsg)), posts)
      else
        (.error (.NetworkError ("Request failed with status: " ++ toString status
          ++ ", body: " ++ text)), posts)

/-- `WxWorkGroupBotPlatform::send_text`. -/
def WxWorkGroupBotPlatform.send_text (p : WxWorkGroupBotPlatform)
    (env : NetEnv) (content : String) : Except PushError PushResult × List HttpPost :=
  p.send_request env (.text
    { msgtype := "text",
      text := { content := content, mentioned_list := [], mentioned_mobile_list := [] } })

/-- `WxWorkGroupBotPlatform::send_text_with_mention`. -/
def WxWorkGroupBotPlatform.send_text_with_mention (p : WxWorkGroupBotPlatform)
    (env : NetEnv) (content : String) (mention_list : List String) :
    Except PushError PushResult × List HttpPost :=
  p.send_request env (.text
    { msgtype := "text",
      text := { content := content, mentioned_list := mention_list,
                mentioned_mobile_list := [] } })

/-- `WxWorkGroupBotPlatform::send_markdown`. -/
def WxWorkGroupBotPlatform.send_markdown (p : WxWorkGroupBotPlatform)
    (env : NetEnv) (content : String) : Except PushError PushResult × List HttpPost :=
  p.send_request env (.markdown
    { msgtype := "markdown",
      markdown := { content := content } })

/-- `WxWorkGroupBotPlatform::send_rich`: fails without touching the network. -/
def WxWorkGroupBotPlatform.send_rich (_p : WxWorkGroupBotPlatform)
    (_env : NetEnv) (_title _content : String) (_url : Option String) :
    Except PushError PushResult × List HttpPost :=
  (.error (.PlatformError "WxWork Bot does not support rich text messages directly."), [])

/-- `WxWorkGroupBotPlatform::send_image`: fails without touching the network. -/
def WxWorkGroupBotPlatform.send_image (_p : WxWorkGroupBotPlatform)
    (_env : NetEnv) (_image_url : String) (_caption : Option String) :
    Except PushError PushResult × List HttpPost :=
  (.error (.PlatformError "WxWork Bot image sending requires pre-uploading."), [])

/-- `WxWorkGroupBotPlatform::send_link`: fails without touching the network. -/
def WxWorkGroupBotPlatform.send_link (_p : WxWorkGroupBotPlatform)
    (_env : NetEnv) (_title _description _url : String) (_image_url : Option String) :
    Except PushError PushResult × List HttpPost :=
  (.error (.PlatformError "WxWork Bot does not support link messages."), [])

/-- `WxWorkGroupBotPlatform::send`: the generic dispatch over `MessageType`. -/
def WxWorkGroupBotPlatform.send (p : WxWorkGroupBotPlatform)
    (env : NetEnv) (message : MessageType) : Except PushError PushResult × List HttpPost :=
  match message with
  | .Text content => p.send_text env content
  | .Markdown content => p.send_markdown env content
  | _ => (.error (.MessageError "Unsupported message type for WxWork Bot"), [])

/-- `WxWorkPlatformFactory` (a unit struct). -/
inductive WxWorkPlatformFactory where
  | mk : WxWorkPlatformFactory
deriving DecidableEq, Repr

/-- `WxWorkPlatformFactory::name` (`impl PlatformFactory`). -/
def WxWorkPlatformFactory.name (_ : WxWorkPlatformFactory) : String :=
  PLATFORM_NAME

/-- `WxWorkPlatformFactory::create` (`impl PlatformFactory`): deserializes the
blob into `WxWorkConfig`, wraps serde failures as `ConfigError`, then builds
the platform instance.  A pure function of the blob: no network effect. -/
def WxWorkPlatformFactory.create (_ : WxWorkPlatformFactory) (config : Json) :
    Except PushError WxWorkGroupBotPlatform :=
  match WxWorkConfig.fromJson config with
  | .error e => .error (.ConfigError e)
  | .ok c => .ok (WxWorkGroupBotPlatform.new c)

/- ### Dispatch handler: server/src/api.rs and server/src/main.rs -/

/-- `PushRequest` from server/src/api.rs. -/
structure PushRequest where
  platform : String
  config : Json
  message : MessageType

/-- `PushResponse` from server/src/api.rs. -/
structure PushResponse where
  result : PushResult
deriving DecidableEq, Repr

/-- The registry built in `main`: `registry.register(Box::new(WxWorkPlatformFactory))`
on a fresh registry. -/
def mainRegistry : PlatformRegistry WxWorkPlatformFactory :=
  (PlatformRegistry.new WxWorkPlatformFactory).register WxWorkPlatformFactory.name .mk

/-- The `push` handler from server/src/main.rs, returning the HTTP status code
and the JSON body.  The only boxed factory/platform implementation in the
binary is the wxwork one, so the trait objects are embedded at that type. -/
def push (registry : PlatformRegistry WxWorkPlatformFactory) (env : NetEnv)
    (req : PushRequest) : Nat × PushResponse :=
  match registry.get_factory req.platform with
  | none =>
    (400, { result := { PushResult.default env.now with
        response := some ("Platform \x27" ++ req.platform ++ "\x27 not found") } })
  | some factory =>
    match factory.create req.config with
    | .error e =>
      (400, { result := { PushResult.default env.now with
          response := some ("Failed to create platform: " ++ e.toString) } })
    | .ok platform =>
      match (platform.send env req.message).1 with
      | .ok push_result => (200, { result := push_result })
      | .error push_error =>
        (200, { result := { PushResult.default env.now with
            response := some push_error.toString } })

/- ### Auxiliary definitions for the claims -/

/-- One chained builder call of the kind C9 quantifies over: `priority`,
`mention`, or `mentions`. -/
inductive BuilderOp where
  | priority (p : Priority) : BuilderOp
  | mention (user : String) : BuilderOp
  | mentions (users : List String) : BuilderOp

/-- Apply one chained builder call. -/
def MessageBuilder.applyOp (b : MessageBuilder) : BuilderOp → MessageBuilder
  | .priority p => b.priority_ p
  | .mention u => b.mention u
  | .mentions us => b.mentions_ us

/-- Apply a sequence of chained builder calls, left to right. -/
def MessageBuilder.applyOps (b : MessageBuilder) (ops : List BuilderOp) : MessageBuilder :=
  ops.foldl MessageBuilder.applyOp b

/-- A configuration blob is well-shaped for `WxWorkConfig` exactly when it
supplies the `token` field as a string, either by key (a JSON object whose
`token` field is a string) or positionally (a one-element JSON array holding
a string, which serde's derived `visit_seq` also accepts); otherwise the
required field is missing or mistyped. -/
def tokenFieldOk : Json → Bool
  | .obj fields =>
    match Json.lookupField fields "token" with
    | some (.str _) => true
    | _ => false
  | .arr [.str _] => true
  | _ => false

/-- The last element of `fs` whose `name` is `n` (the claim's "last factory
registered under that name"), or `none` when no element of `fs` has it. -/
def lastRegistered {F : Type} (name : F → String) (n : String) : List F → Option F
  | [] => none
  | f :: rest =>
    match lastRegistered name n rest with
    | some g => some g
    | none => if name f = n then some f else none

deriving instance DecidableEq for Except

/- ### Theorems for the claims -/

/-- C7: the default `PushResult` value has `success == false`, no
`message_id`, and no `response`, whatever the ambient clock reads. -/
theorem push_result_default_fields (now : Nat) :
    (PushResult.default now).success = false ∧
    (PushResult.default now).message_id = none ∧
    (PushResult.default now).response = none :=
  ⟨rfl, rfl, rfl⟩

/-- C8: for every string `s`, `MessageBuilder::text(s).build()` is
`MessageType::Text(s)`; in particular building from "Hello World" yields
exactly `Text "Hello World"`. -/
theorem message_builder_text_roundtrip (s : String) :
    (MessageBuilder.text s).build = MessageType.Text s ∧
    (MessageBuilder.text "Hello World").build = MessageType.Text "Hello World" :=
  ⟨rfl, rfl⟩

/-- C9: for every builder and every sequence of `priority`, `mention` and
`mentions` calls applied to it, `build()` returns exactly what `build()`
returns without those calls: the priority and mention list are discarded. -/
theorem builder_ops_do_not_affect_build (b : MessageBuilder) (ops : List BuilderOp) :
    (b.applyOps ops).build = b.build := by
  induction ops generalizing b with
  | nil => rfl
  | cons op rest ih =>
    have hmt : (b.applyOp op).message_type = b.message_type := by
      cases op <;> rfl
    calc ((b.applyOp op).applyOps rest).build = (b.applyOp op).build := ih (b.applyOp op)
      _ = b.build := hmt

/-- C4: `send_rich`, `send_image` and `send_link` of the reference
integration each fail immediately with a `PlatformError` describing the
limitation and attempt zero outbound HTTP posts, for every input and every
network environment. -/
theorem wxwork_unsupported_sends_fail_without_network
    (p : WxWorkGroupBotPlatform) (env : NetEnv)
    (title content description image_url url' : String)
    (url caption iurl : Option String) :
    p.send_rich env title content url =
      (.error (.PlatformError "WxWork Bot does not support rich text messages directly."), []) ∧
    p.send_image env image_url caption =
      (.error (.PlatformError "WxWork Bot image sending requires pre-uploading."), []) ∧
    p.send_link env title description url' iurl =
      (.error (.PlatformError "WxWork Bot does not support link messages."), []) :=
  ⟨rfl, rfl, rfl⟩

/-- C3, counterexample: the claim requires the error to read exactly
`MessageError "Unsupported message type"`, but on a `Rich` message the code
produces `MessageError "Unsupported message type for WxWork Bot"`. -/
theorem send_unsupported_exact_string_counterexample :
    (WxWorkGroupBotPlatform.new { token := "t" }).send
        { now := 0, parseEnvelope := fun _ => .error "unused",
          outcome := .sendFailure "unused" }
        (.Rich "title" "body" none)
      ≠ (.error (.MessageError "Unsupported message type"), []) := by
  decide

/-- C3, amended: `send` dispatches `Text` to `send_text` and `Markdown` to
`send_markdown`; every other variant (`Rich`, `Image`, `Link`) fails with
`MessageError "Unsupported message type for WxWork Bot"` and attempts no
outbound HTTP post. -/
theorem send_dispatch_by_message_type (p : WxWorkGroupBotPlatform) (env : NetEnv) :
    (∀ content, p.send env (.Text content) = p.send_text env content) ∧
    (∀ content, p.send env (.Markdown content) = p.send_markdown env content) ∧
    (∀ title content url, p.send env (.Rich title content url) =
      (.error (.MessageError "Unsupported message type for WxWork Bot"), [])) ∧
    (∀ url caption, p.send env (.Image url caption) =
      (.error (.MessageError "Unsupported message type for WxWork Bot"), [])) ∧
    (∀ title description url image_url, p.send env (.Link title description url image_url) =
      (.error (.MessageError "Unsupported message type for WxWork Bot"), [])) :=
  ⟨fun _ => rfl, fun _ => rfl, fun _ _ _ => rfl, fun _ _ => rfl, fun _ _ _ _ => rfl⟩

/-- C6: whenever the configuration blob does not supply a string `token`
field (by key, or positionally as serde's `visit_seq` allows) — the required
field is missing or mistyped — `create` fails with a `ConfigError`.
`create` is embedded as a total pure function of the blob, so it cannot
panic and has no network effect by construction. -/
theorem wxwork_create_config_error (f : WxWorkPlatformFactory) (cfg : Json)
    (h : tokenFieldOk cfg = false) :
    ∃ e, f.create cfg = .error (.ConfigError e) := by
  cases f
  cases cfg with
  | obj fields =>
    cases hl : Json.lookupField fields "token" with
    | none =>
      exact ⟨"missing field token",
        by simp [WxWorkPlatformFactory.create, WxWorkConfig.fromJson, hl]⟩
    | some v =>
      cases v with
      | str s =>
        exfalso
        simp [tokenFieldOk, hl] at h
      | null =>
        exact ⟨"invalid type for field token, expected a string",
          by simp [WxWorkPlatformFactory.create, WxWorkConfig.fromJson, hl]⟩
      | bool b =>
        exact ⟨"invalid type for field token, expected a string",
          by simp [WxWorkPlatformFactory.create, WxWorkConfig.fromJson, hl]⟩
      | num n =>
        exact ⟨"invalid type for field token, expected a string",
          by simp [WxWorkPlatformFactory.create, WxWorkConfig.fromJson, hl]⟩
      | arr xs =>
        exact ⟨"invalid type for field token, expected a string",
          by simp [WxWorkPlatformFactory.create, WxWorkConfig.fromJson, hl]⟩
      | obj fs =>
        exact ⟨"invalid type for field token, expected a string",
          by simp [WxWorkPlatformFactory.create, WxWorkConfig.fromJson, hl]⟩
  | null => exact ⟨"invalid type: expected struct WxWorkConfig", rfl⟩
  | bool b => exact ⟨"invalid type: expected struct WxWorkConfig", rfl⟩
  | num n => exact ⟨"invalid type: expected struct WxWorkConfig", rfl⟩
  | str s => exact ⟨"invalid type: expected struct WxWorkConfig", rfl⟩
  | arr xs =>
    cases xs with
    | nil =>
      exact ⟨"invalid length 0, expected struct WxWorkConfig with 1 element", rfl⟩
    | cons hd tl =>
      cases hd with
      | str s =>
        cases tl with
        | nil =>
          exfalso
          simp [tokenFieldOk] at h
        | cons hd2 tl2 =>
          exact ⟨"invalid length, expected fewer elements in array", rfl⟩
      | null => exact ⟨"invalid type for field token, expected a string", rfl⟩
      | bool b => exact ⟨"invalid type for field token, expected a string", rfl⟩
      | num n => exact ⟨"invalid type for field token, expected a string", rfl⟩
      | arr ys => exact ⟨"invalid type for field token, expected a string", rfl⟩
      | obj fs => exact ⟨"invalid type for field token, expected a string", rfl⟩

/-- C6 witness: the empty JSON object is missing the `token` field, and
`create` rejects it with a `ConfigError`. -/
theorem wxwork_create_config_error_witness :
    tokenFieldOk (.obj []) = false ∧
    ∃ e, WxWorkPlatformFactory.mk.create (.obj []) = .error (.ConfigError e) :=
  ⟨rfl, wxwork_create_config_error .mk (.obj []) rfl⟩

/-- C10: if the transport delivers a success-status response whose body does
not parse as the `{errcode, errmsg}` envelope, `send_request` fails with a
`PlatformError` wrapping the parse error. -/
theorem send_request_envelope_parse_failure (p : WxWorkGroupBotPlatform)
    (pl : WirePayload) (env : NetEnv) (status : Nat) (body e : String)
    (hout : env.outcome = .response status (.ok body))
    (hst : statusIsSuccess status = true)
    (hparse : env.parseEnvelope body = .error e) :
    (p.send_request env pl).1 = .error (.PlatformError e) := by
  unfold WxWorkGroupBotPlatform.send_request
  rw [hout]
  simp [hst, hparse]

/-- C10 witness: a 200 response whose body fails the envelope parse ends in
`PlatformError` with the parse error's text. -/
theorem send_request_envelope_parse_failure_witness :
    ((WxWorkGroupBotPlatform.new { token := "t" }).send_request
        { now := 0, parseEnvelope := fun _ => .error "expected value at line 1",
          outcome := .response 200 (.ok "not json") }
        (.markdown { msgtype := "markdown", markdown := { content := "hi" } })).1
      = .error (.PlatformError "expected value at line 1") :=
  send_request_envelope_parse_failure _ _ _ 200 "not json" "expected value at line 1"
    rfl rfl rfl

/-- C1: `send_request` interprets its outcome as the spec states: a transport
failure (at send or while reading the body) becomes a `NetworkError`; a
non-success status becomes a `NetworkError` wrapping status and body; a
success status whose body parses to an envelope with `errcode == 0` yields
`Ok` with `success := true` and `response` the raw body; a non-zero
`errcode` becomes a `PlatformError` embedding code and message. -/
theorem send_request_response_interpretation (p : WxWorkGroupBotPlatform)
    (pl : WirePayload) (env : NetEnv) :
    (∀ e, env.outcome = .sendFailure e →
      (p.send_request env pl).1 = .error (.NetworkError e)) ∧
    (∀ status e, env.outcome = .response status (.error e) →
      (p.send_request env pl).1 = .error (.NetworkError e)) ∧
    (∀ status body, env.outcome = .response status (.ok body) →
      statusIsSuccess status = false →
      (p.send_request env pl).1 = .error (.NetworkError
        ("Request failed with status: " ++ toString status ++ ", body: " ++ body))) ∧
    (∀ status body wx, env.outcome = .response status (.ok body) →
      statusIsSuccess status = true →
      env.parseEnvelope body = .ok wx → wx.errcode = 0 →
      (p.send_request env pl).1 = .ok
        { message_id := none, success := true, response := some body,
          timestamp := env.now }) ∧
    (∀ status body wx, env.outcome = .response status (.ok body) →
      statusIsSuccess status = true →
      env.parseEnvelope body = .ok wx → wx.errcode ≠ 0 →
      (p.send_request env pl).1 = .error (.PlatformError
        ("WxWork API Error: code=" ++ toString wx.errcode ++ ", message=" ++ wx.errmsg))) := by
  refine ⟨?_, ?_, ?_, ?_, ?_⟩
  · intro e hout
    unfold WxWorkGroupBotPlatform.send_request
    rw [hout]
  · intro status e hout
    unfold WxWorkGroupBotPlatform.send_request
    rw [hout]
  · intro status body hout hst
    unfold WxWorkGroupBotPlatform.send_request
    rw [hout]
    simp [hst]
  · intro status body wx hout hst hparse hcode
    unfold WxWorkGroupBotPlatform.send_request
    rw [hout]
    simp [hst, hparse, hcode]
  · intro status body wx hout hst hparse hcode
    unfold WxWorkGroupBotPlatform.send_request
    rw [hout]
    simp [hst, hparse, hcode]

/-- C1 witness: each of the five interpretation cases, evaluated at concrete
inputs — a refused connection, a body-read failure, a 404, a 200 with
`errcode == 0`, and a 200 with `errcode == 93000`. -/
theorem send_request_response_interpretation_witness :
    ((WxWorkGroupBotPlatform.new { token := "t" }).send_request
        { now := 7, parseEnvelope := fun _ => .error "unused",
          outcome := .sendFailure "connection refused" }
        (.markdown { msgtype := "markdown", markdown := { content := "m" } })).1
      = .error (.NetworkError "connection refused") ∧
    ((WxWorkGroupBotPlatform.new { token := "t" }).send_request
        { now := 7, parseEnvelope := fun _ => .error "unused",
          outcome := .response 200 (.error "body read failed") }
        (.markdown { msgtype := "markdown", markdown := { content := "m" } })).1
      = .error (.NetworkError "body read failed") ∧
    ((WxWorkGroupBotPlatform.new { token := "t" }).send_request
        { now := 7, parseEnvelope := fun _ => .error "unused",
          outcome := .response 404 (.ok "nf") }
        (.markdown { msgtype := "markdown", markdown := { content := "m" } })).1
      = .error (.NetworkError "Request failed with status: 404, body: nf") ∧
    ((WxWorkGroupBotPlatform.new { token := "t" }).send_request
        { now := 7, parseEnvelope := fun _ => .ok { errcode := 0, errmsg := "ok" },
          outcome := .response 200 (.ok "RAW") }
        (.markdown { msgtype := "markdown", markdown := { content := "m" } })).1
      = .ok { message_id := none, success := true, response := some "RAW",
              timestamp := 7 } ∧
    ((WxWorkGroupBotPlatform.new { token := "t" }).send_request
        { now := 7, parseEnvelope := fun _ => .ok { errcode := 93000, errmsg := "invalid token" },
          outcome := .response 200 (.ok "RAW") }
        (.markdown { msgtype := "markdown", markdown := { content := "m" } })).1
      = .error (.PlatformError "WxWork API Error: code=93000, message=invalid token") := by
  refine ⟨?_, ?_, ?_, ?_, ?_⟩
  · exact (send_request_response_interpretation _ _ _).1 "connection refused" rfl
  · exact (send_request_response_interpretation _ _ _).2.1 200 "body read failed" rfl
  · have h := (send_request_response_interpretation
      (WxWorkGroupBotPlatform.new { token := "t" })
      (.markdown { msgtype := "markdown", markdown := { content := "m" } })
      { now := 7, parseEnvelope := fun _ => .error "unused",
        outcome := .response 404 (.ok "nf") }).2.2.1 404 "nf" rfl (by decide)
    exact h
  · have h := (send_request_response_interpretation
      (WxWorkGroupBotPlatform.new { token := "t" })
      (.markdown { msgtype := "markdown", markdown := { content := "m" } })
      { now := 7, parseEnvelope := fun _ => .ok { errcode := 0, errmsg := "ok" },
        outcome := .response 200 (.ok "RAW") }).2.2.2.1 200 "RAW"
      { errcode := 0, errmsg := "ok" } rfl (by decide) rfl rfl
    exact h
  · have h := (send_request_response_interpretation
      (WxWorkGroupBotPlatform.new { token := "t" })
      (.markdown { msgtype := "markdown", markdown := { content := "m" } })
      { now := 7, parseEnvelope := fun _ => .ok { errcode := 93000, errmsg := "invalid token" },
        outcome := .response 200 (.ok "RAW") }).2.2.2.2 200 "RAW"
      { errcode := 93000, errmsg := "invalid token" } rfl (by decide) rfl (by decide)
    exact h

/-- C2: the `push` handler answers 400 with a `success:false` body and a
descriptive message when the platform name is unknown or the factory rejects
the configuration; it answers 200 with `success:false` and the error's
`Display` text when `send` fails; and it answers 200 wrapping the returned
`PushResult` when `send` succeeds. -/
theorem push_handler_status_and_body (registry : PlatformRegistry WxWorkPlatformFactory)
    (env : NetEnv) (req : PushRequest) :
    (registry.get_factory req.platform = none →
      push registry env req = (400, { result :=
        { PushResult.default env.now with
          response := some ("Platform \x27" ++ req.platform ++ "\x27 not found") } })) ∧
    (∀ f e, registry.get_factory req.platform = some f →
      f.create req.config = .error e →
      push registry env req = (400, { result :=
        { PushResult.default env.now with
          response := some ("Failed to create platform: " ++ e.toString) } })) ∧
    (∀ f inst e, registry.get_factory req.platform = some f →
      f.create req.config = .ok inst →
      (inst.send env req.message).1 = .error e →
      push registry env req = (200, { result :=
        { PushResult.default env.now with response := some e.toString } })) ∧
    (∀ f inst r, registry.get_factory req.platform = some f →
      f.create req.config = .ok inst →
      (inst.send env req.message).1 = .ok r →
      push registry env req = (200, { result := r })) := by
  refine ⟨?_, ?_, ?_, ?_⟩
  · intro hget
    unfold push
    rw [hget]
  · intro f e hget hcreate
    unfold push
    simp only [hget, hcreate]
  · intro f inst e hget hcreate hsend
    unfold push
    simp only [hget, hcreate, hsend]
  · intro f inst r hget hcreate hsend
    unfold push
    simp only [hget, hcreate, hsend]

/-- C2 witness: against the registry built in `main`, four concrete requests —
an unknown platform, a config missing `token`, a well-formed request whose
transport fails, and a well-formed request answered `{errcode:0}`. -/
theorem push_handler_status_and_body_witness :
    push mainRegistry
        { now := 3, parseEnvelope := fun _ => .error "unused",
          outcome := .sendFailure "unused" }
        { platform := "telegram", config := .obj [], message := .Text "hi" }
      = (400, { result :=
          { message_id := none, success := false,
            response := some "Platform \x27telegram\x27 not found", timestamp := 3 } }) ∧
    push mainRegistry
        { now := 3, parseEnvelope := fun _ => .error "unused",
          outcome := .sendFailure "unused" }
        { platform := "wxwork", config := .obj [], message := .Text "hi" }
      = (400, { result :=
          { message_id := none, success := false,
            response := some "Failed to create platform: Configuration error: missing field token",
            timestamp := 3 } }) ∧
    push mainRegistry
        { now := 3, parseEnvelope := fun _ => .error "unused",
          outcome := .sendFailure "connection refused" }
        { platform := "wxwork", config := .obj [("token", .str "abc")],
          message := .Text "hi" }
      = (200, { result :=
          { message_id := none, success := false,
            response := some "Network error: connection refused", timestamp := 3 } }) ∧
    push mainRegistry
        { now := 3, parseEnvelope := fun _ => .ok { errcode := 0, errmsg := "ok" },
          outcome := .response 200 (.ok "RAW") }
        { platform := "wxwork", config := .obj [("token", .str "abc")],
          message := .Text "hi" }
      = (200, { result :=
          { message_id := none, success := true,
            response := some "RAW", timestamp := 3 } }) := by
  refine ⟨?_, ?_, ?_, ?_⟩
  · exact (push_handler_status_and_body mainRegistry _ _).1 (by decide)
  · exact (push_handler_status_and_body mainRegistry _ _).2.1 .mk
      (.ConfigError "missing field token") (by decide) (by decide)
  · exact (push_handler_status_and_body mainRegistry _ _).2.2.1 .mk
      (WxWorkGroupBotPlatform.new { token := "abc" })
      (.NetworkError "connection refused") (by decide) (by decide) rfl
  · exact (push_handler_status_and_body mainRegistry _ _).2.2.2 .mk
      (WxWorkGroupBotPlatform.new { token := "abc" })
      { message_id := none, success := true, response := some "RAW", timestamp := 3 }
      (by decide) (by decide) rfl

/-- `find?` after an in-place `insertAssoc`: looking up `n` sees the new
binding exactly when `k = n`, and is otherwise unchanged. -/
theorem find_map_insertAssoc {F : Type} (l : List (String × F)) (k : String)
    (v : F) (n : String) :
    ((insertAssoc l k v).find? (fun kv => kv.1 = n)).map (·.2) =
      if k = n then some v else (l.find? (fun kv => kv.1 = n)).map (·.2) := by
  induction l with
  | nil =>
    by_cases h : k = n <;> simp [insertAssoc, List.find?, h]
  | cons hd tl ih =>
    obtain ⟨k0, v0⟩ := hd
    by_cases h0 : k0 = k
    · subst h0
      by_cases hn : k0 = n <;> simp [insertAssoc, List.find?, hn]
    · have e1 : insertAssoc ((k0, v0) :: tl) k v = (k0, v0) :: insertAssoc tl k v := by
        simp [insertAssoc, h0]
      by_cases hn : k0 = n
      · have hkn : ¬ k = n := fun h => h0 (hn.trans h.symm)
        have hp : (fun kv : String × F => decide (kv.1 = n)) (k0, v0) = true := by
          simp [hn]
        rw [e1, if_neg hkn,
          @List.find?_cons_of_pos _ (fun kv : String × F => decide (kv.1 = n))
            (k0, v0) (insertAssoc tl k v) hp,
          @List.find?_cons_of_pos _ (fun kv : String × F => decide (kv.1 = n))
            (k0, v0) tl hp]
      · have hp : ¬ ((fun kv : String × F => decide (kv.1 = n)) (k0, v0) = true) := by
          simp [hn]
        rw [e1,
          @List.find?_cons_of_neg _ (fun kv : String × F => decide (kv.1 = n))
            (k0, v0) (insertAssoc tl k v) hp,
          @List.find?_cons_of_neg _ (fun kv : String × F => decide (kv.1 = n))
            (k0, v0) tl hp, ih]

/-- Effect of one `register` call on a later `get_factory`. -/
theorem get_factory_register {F : Type} (name : F → String)
    (r : PlatformRegistry F) (f : F) (n : String) :
    (r.register name f).get_factory n =
      if name f = n then some f else r.get_factory n := by
  unfold PlatformRegistry.register PlatformRegistry.get_factory
  exact find_map_insertAssoc r.factories (name f) f n

/-- Effect of a whole registration sequence, over any starting registry. -/
theorem get_factory_registerAll {F : Type} (name : F → String)
    (r : PlatformRegistry F) (fs : List F) (n : String) :
    (r.registerAll name fs).get_factory n =
      match lastRegistered name n fs with
      | some g => some g
      | none => r.get_factory n := by
  induction fs generalizing r with
  | nil => rfl
  | cons f rest ih =>
    have h1 : r.registerAll name (f :: rest) = (r.register name f).registerAll name rest := rfl
    rw [h1, ih, get_factory_register]
    show _ = (match (match lastRegistered name n rest with
      | some g => some g
      | none => if name f = n then some f else none) with
      | some g => some g
      | none => r.get_factory n)
    cases lastRegistered name n rest with
    | some g => rfl
    | none =>
      by_cases hf : name f = n <;> simp [hf]

/-- When no element of `fs` carries the name `n`, there is no last one. -/
theorem lastRegistered_eq_none {F : Type} (name : F → String) (n : String)
    (fs : List F) (h : ∀ f ∈ fs, name f ≠ n) :
    lastRegistered name n fs = none := by
  induction fs with
  | nil => rfl
  | cons f rest ih =>
    have hrest := ih (fun g hg => h g (List.mem_cons_of_mem f hg))
    have hf : name f ≠ n := h f (List.mem_cons_self f rest)
    simp only [lastRegistered]
    rw [hrest]
    simp [hf]

/-- C5: for every sequence of `register` calls on a fresh registry,
`get_factory(n)` returns the last factory registered under the name `n`
(later registrations silently overwrite earlier ones), and `none` when no
registered factory has that name. -/
theorem registry_last_registration_wins {F : Type} (name : F → String)
    (fs : List F) (n : String) :
    ((PlatformRegistry.new F).registerAll name fs).get_factory n
        = lastRegistered name n fs ∧
    ((∀ f ∈ fs, name f ≠ n) →
      ((PlatformRegistry.new F).registerAll name fs).get_factory n = none) := by
  have key : ((PlatformRegistry.new F).registerAll name fs).get_factory n
      = lastRegistered name n fs := by
    rw [get_factory_registerAll]
    cases lastRegistered name n fs with
    | some g => rfl
    | none => rfl
  refine ⟨key, fun hnone => ?_⟩
  rw [key, lastRegistered_eq_none name n fs hnone]

/-- C5 witness: registering names `wx`, `tg`, `wx` in order, the lookup of
`wx` returns the third factory and the lookup of an unregistered name
returns `none`. -/
theorem registry_last_registration_wins_witness :
    ((PlatformRegistry.new (Nat × String)).registerAll Prod.snd
        [(1, "wx"), (2, "tg"), (3, "wx")]).get_factory "wx" = some (3, "wx") ∧
    ((PlatformRegistry.new (Nat × String)).registerAll Prod.snd
        [(1, "wx"), (2, "tg"), (3, "wx")]).get_factory "zzz" = none := by
  constructor
  · exact (registry_last_registration_wins Prod.snd
      [(1, "wx"), (2, "tg"), (3, "wx")] "wx").1.trans (by decide)
  · exact (registry_last_registration_wins Prod.snd
      [(1, "wx"), (2, "tg"), (3, "wx")] "zzz").2 (by decide)
